import Mathlib

/-!
Shallow embedding of the turn-based multi-agent action-arbitration engine
implemented in `chat.py`, together with theorems settling the frozen claims
about it.  Every definition is translated from the Python source; the two
LLM round-trips (action proposer and world supervisor) are modelled as
explicit oracle parameters, so that "without consulting the oracle" becomes
"the result does not depend on the oracle parameter".

Python `str.lower()` / `str.upper()` are modelled by `strLower` / `strUpper`,
which map `Char.toLower` / `Char.toUpper` over the character list; they are
proved equal to `String.toLower` / `String.toUpper` below (`strLower_toLower`,
`strUpper_toUpper`) and, unlike those, reduce inside the kernel, so concrete
witnesses can be checked by `decide`.
-/

namespace Chat

/-- Python `str.lower()` (ASCII case mapping, as `String.toLower`). -/
def strLower (s : String) : String := ⟨s.data.map Char.toLower⟩

/-- Python `str.upper()` (ASCII case mapping, as `String.toUpper`). -/
def strUpper (s : String) : String := ⟨s.data.map Char.toUpper⟩

/-- Item kinds: the closed tagged union `Sword | Stone` (`chat.py` lines 12-21).
Equality is by tag only. -/
inductive ItemKind where
  | Sword
  | Stone
deriving DecidableEq, Repr

/-- The discriminator string `item.item.type` carried by an `Item` value. -/
def kindStr : ItemKind → String
  | .Sword => "Sword"
  | .Stone => "Stone"

/-- A knowledge fact (`Knowledge(knowledge=Location(of=Item(...), location=...))`,
`chat.py` lines 24-30, flattened): an item kind bound to a location string. -/
structure Knowledge where
  kind : ItemKind
  location : String
deriving DecidableEq, Repr

/-- Agent motivation, `SeekMotivation` (with its sought item) or
`BeHelpfulMotivation` (`chat.py` lines 37-61). -/
inductive Motivation where
  | seek (item : ItemKind)
  | beHelpful
deriving DecidableEq, Repr

/-- Mutable agent state (`class Agent`, `chat.py` lines 153-161).  The Python
`set[str]` field `known_locations` is modelled as a duplicate-free-by-insertion
list; `known_items` and `acquired_items` store item kinds (the Python lists
store `Item` wrappers compared by their `type` tag). -/
structure Agent where
  name : String
  known_items : List ItemKind
  known_locations : List String
  known_agents : List String
  current_location : String
  motivation : Motivation
  knowledge : List Knowledge
  acquired_items : List ItemKind
deriving DecidableEq, Repr

/-- `DialogueAction` (`chat.py` lines 79-83): the enum-valued
`agent_to_talk_to` is modelled by its string value. -/
structure DialogueAction where
  agent_to_talk_to : String
  message : String
  end_turn : Bool
  is_question : Bool
  knowledge : Option Knowledge
  knowledge_desired : Option String
deriving DecidableEq, Repr

/-- `TravelAction` (`chat.py` lines 108-110): `location` holds the enum
member value (the destination string as stored in the grammar). -/
structure TravelAction where
  location : String
  message : String
  agent_to_talk_to : String
  end_turn : Bool
deriving DecidableEq, Repr

/-- `SearchAction` (`chat.py` lines 129-131): `item_type` is the literal
string `"Sword"` or `"Stone"` on the wire; kept as a string here exactly as
the Python runtime value is a `str`. -/
structure SearchAction where
  item_type : String
  message : String
  agent_to_talk_to : String
  end_turn : Bool
deriving DecidableEq, Repr

/-- The tagged action union delivered to validation and broadcast. -/
inductive Action where
  | dialogue (d : DialogueAction)
  | travel (t : TravelAction)
  | search (s : SearchAction)
deriving DecidableEq, Repr

/-- The `end_turn` flag shared by every action variant. -/
def Action.endTurnFlag : Action → Bool
  | .dialogue d => d.end_turn
  | .travel t => t.end_turn
  | .search s => s.end_turn

/-- Python `set.add` on the list model: append only when absent. -/
def setAdd (s : List String) (x : String) : List String :=
  if x ∈ s then s else s ++ [x]

/-- First phase of `receive_action` (`chat.py` lines 281-283): record the
acting agent as known when it is new and not the receiver itself. -/
def agentAfterMeet (a : Agent) (fromAgent : String) : Agent :=
  if fromAgent ∉ a.known_agents ∧ fromAgent ≠ a.name then
    { a with known_agents := a.known_agents ++ [fromAgent] }
  else a

/-- The scan `any(k.knowledge.location.lower() == self.current_location.lower()
and k.knowledge.of.item.type == item_type for k in self.knowledge)`
(`chat.py` lines 288-292). -/
def locationHasItem (a : Agent) (item_type : String) : Bool :=
  a.knowledge.any fun k =>
    strLower k.location == strLower a.current_location && kindStr k.kind == item_type

/-- The `if item_type == "Stone" ... elif item_type == "Sword"` item
construction (`chat.py` lines 296-299); `none` models the Python branch
leaving `new_item` unbound. -/
def mkItem? (item_type : String) : Option ItemKind :=
  if item_type == "Stone" then some ItemKind.Stone
  else if item_type == "Sword" then some ItemKind.Sword
  else none

/-- Search branch of `receive_action` (`chat.py` lines 285-303).  The
receiver reacts only to its own search; the `Except.error` case models the
`NameError` Python would raise appending an unbound `new_item`. -/
def applySearch (a : Agent) (s : SearchAction) (fromAgent : String) :
    Except String Agent :=
  if fromAgent == a.name then
    if locationHasItem a s.item_type then
      if ¬ a.acquired_items.any (fun it => kindStr it == s.item_type) then
        match mkItem? s.item_type with
        | none => Except.error "NameError: new_item is not bound"
        | some it => Except.ok { a with acquired_items := a.acquired_items ++ [it] }
      else Except.ok a
    else Except.ok a
  else Except.ok a

/-- Knowledge-sharing half of the dialogue branch (`chat.py` lines 307-328):
the payload location is first normalized to lower case (line 310), insertion
is deduplicated against existing entries by lowered location and item kind,
and a new entry also registers the location and the item kind. -/
def applyDialogueShare (a : Agent) (payload : Option Knowledge) : Agent :=
  match payload with
  | none => a
  | some nk =>
    let loc := strLower nk.location
    let knowledgeExists := a.knowledge.any fun k =>
      strLower k.location == strLower loc && kindStr k.kind == kindStr nk.kind
    if ¬ knowledgeExists then
      let a' := { a with
        knowledge := a.knowledge ++ [{ kind := nk.kind, location := loc }],
        known_locations := setAdd a.known_locations loc }
      if ¬ a'.known_items.any (fun it => kindStr it == kindStr nk.kind) then
        { a' with known_items := a'.known_items ++ [nk.kind] }
      else a'
    else a

/-- Question-tracking half of the dialogue branch (`chat.py` lines 330-337):
an asked-about item kind becomes known (truthiness of `knowledge_desired`
requires a nonempty string). -/
def applyDialogueQuestion (a1 : Agent) (d : DialogueAction) : Agent :=
  if d.is_question then
    match d.knowledge_desired with
    | some kd =>
      if kd ≠ "" then
        if ¬ a1.known_items.any (fun it => kindStr it == kd) then
          if kd == "Stone" then { a1 with known_items := a1.known_items ++ [ItemKind.Stone] }
          else if kd == "Sword" then { a1 with known_items := a1.known_items ++ [ItemKind.Sword] }
          else a1
        else a1
      else a1
    | none => a1
  else a1

/-- Dialogue branch of `receive_action` (`chat.py` lines 305-337): knowledge
insertion deduplicated by lowered location and item kind, then tracking of
item kinds mentioned in questions. -/
def applyDialogue (a : Agent) (d : DialogueAction) : Agent :=
  applyDialogueQuestion (applyDialogueShare a d.knowledge) d

/-- Travel branch of `receive_action` (`chat.py` lines 339-349): register the
lowered destination as a known location when new; the actor additionally
moves there. -/
def applyTravel (a : Agent) (t : TravelAction) (fromAgent : String) : Agent :=
  let loc := strLower t.location
  let a1 :=
    if loc ∉ a.known_locations then { a with known_locations := a.known_locations ++ [loc] }
    else a
  if fromAgent == a1.name then { a1 with current_location := loc } else a1

/-- Body of `Agent.receive_action` inside the `try` block (`chat.py` lines
276-350), as an exception-aware computation. -/
def receiveActionE (a : Agent) (act : Action) (fromAgent : String) :
    Except String Agent :=
  let a0 := agentAfterMeet a fromAgent
  match act with
  | .search s => applySearch a0 s fromAgent
  | .dialogue d => Except.ok (applyDialogue a0 d)
  | .travel t => Except.ok (applyTravel a0 t fromAgent)

/-- `Agent.receive_action` (`chat.py` lines 268-352): the surrounding
`try/except` catches every exception, leaving the state reached before the
failing statement (the only modelled failure point occurs before any further
mutation, after the known-agents update). -/
def receive_action (a : Agent) (act : Action) (fromAgent : String) : Agent :=
  match receiveActionE a act fromAgent with
  | Except.ok a' => a'
  | Except.error _ => agentAfterMeet a fromAgent

/-- The broadcast loop `for other_agent in agents: other_agent.receive_action`
(`chat.py` lines 587-588). -/
def broadcast (agents : List Agent) (act : Action) (fromAgent : String) : List Agent :=
  agents.map fun a => receive_action a act fromAgent

/-- Nonemptiness of a string after stripping surrounding whitespace: some
character is not whitespace.  Models the pydantic constraint
`constr(min_length=1, strip_whitespace=True)` on `message` fields. -/
def strippedNonempty (s : String) : Bool :=
  s.data.any fun c => !c.isWhitespace

/-- Result of `possible_next_actions` (`chat.py` lines 387-417): the allowed
value set of each enum-typed field, and which action variants the returned
union offers.  Enum values are the raw strings (`{l.upper(): l for l in ...}`,
so member values are the un-uppercased originals). -/
structure Grammar where
  locations : List String
  agentsToTalkTo : List String
  travelOffered : Bool
  dialogueOffered : Bool
  searchOffered : Bool
deriving DecidableEq, Repr

/-- `possible_next_actions` (`chat.py` lines 387-417): Travel is in the union
only when more than one location is known; Dialogue and Search are always in
the union; `agent_to_talk_to` ranges over known agents other than the agent
itself (case-insensitive name comparison). -/
def possible_next_actions (agent : Agent) : Grammar :=
  { locations := agent.known_locations,
    agentsToTalkTo := agent.known_agents.filter fun l => strLower l != strLower agent.name,
    travelOffered := agent.known_locations.length > 1,
    dialogueOffered := true,
    searchOffered := true }

/-- A `ValidSearchAction` instance constructible against a grammar: the
`item_type` literal, the `agent_to_talk_to` enum membership, and the
`constr(min_length=1, strip_whitespace=True)` message constraint
(`chat.py` lines 408-410). -/
def Grammar.constructibleSearch (g : Grammar) (s : SearchAction) : Prop :=
  (s.item_type = "Sword" ∨ s.item_type = "Stone") ∧
  s.agent_to_talk_to ∈ g.agentsToTalkTo ∧
  strippedNonempty s.message = true

/-- Some `ValidSearchAction` instance exists for the grammar. -/
def Grammar.searchConstructible (g : Grammar) : Prop :=
  ∃ s : SearchAction, g.constructibleSearch s

/-- The forced-travel JSON payload built at `chat.py` lines 178-186 (field
values of the returned action object). -/
structure ForcedTravel where
  location : String
  message : String
  agent_to_talk_to : String
  end_turn : Bool
deriving DecidableEq, Repr

/-- The scan `next((k.knowledge.location.lower() for k in self.knowledge if
k.knowledge.of.item.type == sought_item_type), None)` (`chat.py` lines
168-172 and 444-448). -/
def seekKnownLocation (a : Agent) (sought : ItemKind) : Option String :=
  (a.knowledge.find? fun k => kindStr k.kind == kindStr sought).map
    fun k => strLower k.location

/-- The forced-travel override at the start of `produce_next_action`
(`chat.py` lines 164-188): for a seeking agent whose first matching knowledge
entry names a (truthy) location other than `current_location`, return the
hand-built travel JSON addressed to the first known agent (`json.dumps` of
plain strings never raises, so the loop returns on its first iteration);
with no known agents the loop body never runs and control falls through. -/
def forcedTravel? (a : Agent) : Option ForcedTravel :=
  match a.motivation with
  | .beHelpful => none
  | .seek sought =>
    match seekKnownLocation a sought with
    | none => none
    | some loc =>
      if loc ≠ "" ∧ loc ≠ a.current_location then
        match a.known_agents.head? with
        | some agent_name =>
          some { location := strUpper loc,
                 message := "Going to " ++ loc ++ " to find the " ++ kindStr sought ++ ".",
                 agent_to_talk_to := strUpper agent_name,
                 end_turn := true }
        | none => none
      else none

/-- Outcome of `produce_next_action`: either the forced-travel short-circuit
or whatever the LLM oracle answered. -/
inductive ProposerResult where
  | forced (t : ForcedTravel)
  | fromOracle (response : String)
deriving DecidableEq, Repr

/-- `Agent.produce_next_action` (`chat.py` lines 163-266).  The prompt
assembly and the `chat(...)` round-trip are the proposer oracle boundary;
`oracle` stands for the raw response the LLM would return for this
invocation, and the grammar, log window and rejection feedback are the other
inputs forwarded to it. -/
def produce_next_action (a : Agent) (available_actions : Grammar)
    (global_past_actions : List (String × Action))
    (rejection_reason : Option String) (oracle : String) : ProposerResult :=
  match forcedTravel? a with
  | some t => ProposerResult.forced t
  | none =>
    let _ := available_actions
    let _ := global_past_actions
    let _ := rejection_reason
    ProposerResult.fromOracle oracle

/-- Substring test implementing the Python `phrase in message` operator:
the needle occurs as a contiguous infix of the haystack. -/
def strContains (haystack needle : String) : Bool :=
  (List.range (haystack.data.length + 1)).any fun i =>
    needle.data.isPrefixOf (haystack.data.drop i)

/-- The rejection reason of the travel pre-check (`chat.py` line 439). -/
def travelReason (destination : String) : String :=
  "Invalid travel destination: \x27" ++ destination ++ "\x27 is not a known location"

/-- The rejection reason of the forced-seek pre-check (`chat.py` line 452). -/
def seekReason (loc : String) (sought : ItemKind) : String :=
  "Agent must use travel_action to move to " ++ loc ++
    " where they know their sought item (" ++ kindStr sought ++
    ") is located before taking other actions"

/-- The rejection reason of the intention-phrase pre-check (`chat.py` line 467). -/
def intentionReason : String :=
  "Don\x27t state intentions - just take the action. Instead of saying what you will do, do it."

/-- First deterministic pre-check of `Supervisor.validate_action` (`chat.py`
lines 436-439): a travel destination must, lowered, be a known location. -/
def travelPre (agent : Agent) : Action → Option String
  | .travel t =>
    if strLower t.location ∉ agent.known_locations then some (travelReason t.location)
    else none
  | _ => none

/-- Second deterministic pre-check (`chat.py` lines 442-452): a seeking agent
who knows a location for the sought item other than its current one must
travel exactly there. -/
def seekPre (agent : Agent) (act : Action) : Option String :=
  match agent.motivation with
  | .beHelpful => none
  | .seek sought =>
    match seekKnownLocation agent sought with
    | none => none
    | some loc =>
      if loc ≠ "" ∧ loc ≠ agent.current_location then
        match act with
        | .travel t => if strLower t.location = loc then none else some (seekReason loc sought)
        | _ => some (seekReason loc sought)
      else none

/-- The fixed intention-phrase denylist (`chat.py` lines 457-465). -/
def intention_phrases : List String :=
  ["going to", "will check", "will go", "plan to", "intend to", "about to", "planning to"]

/-- Third deterministic pre-check (`chat.py` lines 455-467): dialogue
messages containing a denylisted phrase (case-insensitive substring). -/
def intentionPre : Action → Option String
  | .dialogue d =>
    if intention_phrases.any (fun phrase => strContains (strLower d.message) phrase) then
      some intentionReason
    else none
  | _ => none

/-- `Supervisor.validate_action` (`chat.py` lines 426-516): the three
deterministic pre-checks in source order, then the semantic oracle.  The
oracle parameter carries the parsed `ValidationResult` or, as `Except.error`,
an unparseable response (`chat.py` lines 512-516). -/
def Supervisor.validate_action (agent : Agent) (act : Action)
    (global_past_actions : List (String × Action))
    (oracle : Except String (Bool × String)) : Bool × String :=
  match travelPre agent act with
  | some r => (false, r)
  | none =>
    match seekPre agent act with
    | some r => (false, r)
    | none =>
      match intentionPre act with
      | some r => (false, r)
      | none =>
        let _ := global_past_actions
        match oracle with
        | Except.ok v => v
        | Except.error e => (false, "Error parsing supervisor response: " ++ e)

/-- `MAX_CONSECUTIVE_TURNS` (`chat.py` line 9). -/
def MAX_CONSECUTIVE_TURNS : Nat := 3

/-- The sub-turn loop `while turn_count < MAX_CONSECUTIVE_TURNS` of `main`
(`chat.py` lines 551-608), counting accepted actions.  The inner
retry-until-valid loop produces exactly one accepted action per iteration;
`accepted n` is the n-th accepted action of this turn.  After processing an
action the loop stops when its `end_turn` flag is set, otherwise increments
`turn_count` and re-enters the guard. -/
def subTurnActions (accepted : Nat → Action) (turn_count : Nat) : Nat :=
  if turn_count < MAX_CONSECUTIVE_TURNS then
    if (accepted turn_count).endTurnFlag then 1
    else 1 + subTurnActions accepted (turn_count + 1)
  else 0
termination_by MAX_CONSECUTIVE_TURNS - turn_count

/-- Shared mutable state of `main` (`chat.py` lines 540-542): the agent
population and the global past-actions log of `(acting agent name, action)`
pairs. -/
structure WorldState where
  agents : List Agent
  global_past_actions : List (String × Action)
deriving DecidableEq, Repr

/-- Processing of one accepted action (`chat.py` lines 571-588): append the
`(agent.name, action)` entry to the global log, then broadcast the action to
every agent.  Nothing else in the scheduler writes the log. -/
def applyAccepted (w : WorldState) (actorName : String) (act : Action) : WorldState :=
  { agents := broadcast w.agents act actorName,
    global_past_actions := w.global_past_actions ++ [(actorName, act)] }

/-- A run of the scheduler restricted to its accepted actions, in order. -/
def runAccepted (w : WorldState) (steps : List (String × Action)) : WorldState :=
  steps.foldl (fun acc step => applyAccepted acc step.1 step.2) w

/-- The `Seeker` agent of the world seed (`chat.py` lines 520-528). -/
def seeker_agent : Agent :=
  { name := "Seeker",
    known_items := [ItemKind.Stone, ItemKind.Sword],
    known_locations := ["city"],
    known_agents := ["Knower"],
    current_location := "city",
    motivation := Motivation.seek ItemKind.Sword,
    knowledge := [],
    acquired_items := [] }

/-- The `Knower` agent of the world seed (`chat.py` lines 529-538). -/
def knower_agent : Agent :=
  { name := "Knower",
    known_items := [],
    known_locations := ["city", "field"],
    known_agents := ["Seeker"],
    current_location := "city",
    motivation := Motivation.beHelpful,
    knowledge := [{ kind := ItemKind.Sword, location := "field" }],
    acquired_items := [] }

/-- The seeker after having learned that the sword is in the field: the
state of the forced-travel convergence scenario of the specification. -/
def seekerInformed : Agent :=
  { seeker_agent with
    knowledge := [{ kind := ItemKind.Sword, location := "field" }],
    known_locations := ["city", "field"] }

/-- A seeking agent whose knowledge list holds two entries for the sought
kind: the first at its current location, a second elsewhere. -/
def seekerTwoEntries : Agent :=
  { seeker_agent with
    knowledge := [{ kind := ItemKind.Sword, location := "city" },
                  { kind := ItemKind.Sword, location := "field" }],
    known_locations := ["city", "field"] }

/-- An agent that knows no other agents. -/
def lonerAgent : Agent :=
  { name := "Loner", known_items := [], known_locations := ["city"], known_agents := [],
    current_location := "city", motivation := Motivation.beHelpful, knowledge := [],
    acquired_items := [] }

/-- A dialogue stating an intention, from the specification example. -/
def intentionDialogue : DialogueAction :=
  { agent_to_talk_to := "Knower", message := "I am going to check the field",
    end_turn := true, is_question := false, knowledge := none, knowledge_desired := none }

/-- A dialogue sharing a finding, from the specification example. -/
def findingDialogue : DialogueAction :=
  { agent_to_talk_to := "Seeker", message := "I found the sword in the field",
    end_turn := true, is_question := false,
    knowledge := some { kind := ItemKind.Sword, location := "field" },
    knowledge_desired := none }

/-- A travel action to a location the seeker does not know. -/
def unknownTravel : TravelAction :=
  { location := "moon", message := "Off to the moon.", agent_to_talk_to := "KNOWER",
    end_turn := true }

/-- A travel action to the field, as accepted in the demo world. -/
def fieldTravel : TravelAction :=
  { location := "field", message := "Going to field to find the Sword.",
    agent_to_talk_to := "KNOWER", end_turn := true }

/-- A search for the sword, as the seeker would perform in the field. -/
def swordSearch : SearchAction :=
  { item_type := "Sword", message := "Searching the field for the sword.",
    agent_to_talk_to := "KNOWER", end_turn := true }

/-- A proposal stream that never yields the turn. -/
def nonYieldingStream : Nat → Action := fun _ =>
  Action.search
    { item_type := "Sword", message := "still searching", agent_to_talk_to := "KNOWER",
      end_turn := false }

/-- The seeker once it has reached the field and picked up the sword. -/
def seekerHolding : Agent :=
  { seekerInformed with current_location := "field", acquired_items := [ItemKind.Sword] }

/-! ## Helper lemmas on characters and strings -/

theorem char_toNat_ofNat {n : Nat} (h : n.isValidChar) : (Char.ofNat n).toNat = n := by
  rw [Char.ofNat, dif_pos h]
  rfl

theorem char_toLower_idem (c : Char) : c.toLower.toLower = c.toLower := by
  simp only [Char.toLower]
  by_cases h : c.toNat ≥ 65 ∧ c.toNat ≤ 90
  · rw [if_pos h]
    have hv : (c.toNat + 32).isValidChar := Or.inl (by omega)
    rw [char_toNat_ofNat hv, if_neg (by omega)]
  · rw [if_neg h, if_neg h]

theorem char_toLower_toUpper (c : Char) : c.toUpper.toLower = c.toLower := by
  simp only [Char.toUpper, Char.toLower]
  by_cases h : c.toNat ≥ 97 ∧ c.toNat ≤ 122
  · rw [if_pos h]
    have hv : (c.toNat - 32).isValidChar := Or.inl (by omega)
    rw [char_toNat_ofNat hv, if_pos (by omega)]
    have heq : c.toNat - 32 + 32 = c.toNat := by omega
    rw [heq, Char.ofNat_toNat, if_neg (by omega)]
  · rw [if_neg h]

theorem strLower_toLower (s : String) : strLower s = s.toLower := by
  rw [String.toLower, String.map_eq]
  rfl

theorem strUpper_toUpper (s : String) : strUpper s = s.toUpper := by
  rw [String.toUpper, String.map_eq]
  rfl

theorem strLower_idem (s : String) : strLower (strLower s) = strLower s := by
  unfold strLower
  refine congrArg String.mk ?_
  show (s.data.map Char.toLower).map Char.toLower = s.data.map Char.toLower
  rw [List.map_map]
  exact List.map_congr_left fun c _ => char_toLower_idem c

theorem strLower_strUpper (s : String) : strLower (strUpper s) = strLower s := by
  unfold strLower strUpper
  refine congrArg String.mk ?_
  show (s.data.map Char.toUpper).map Char.toLower = s.data.map Char.toLower
  rw [List.map_map]
  exact List.map_congr_left fun c _ => char_toLower_toUpper c

/-! ## Helper lemmas on the embedded operations -/

theorem subTurnActions_stopped (f : Nat → Action) (c : Nat)
    (h : ¬ c < MAX_CONSECUTIVE_TURNS) : subTurnActions f c = 0 := by
  rw [subTurnActions]
  simp [h]

theorem subTurnActions_step (f : Nat → Action) (c : Nat)
    (h : c < MAX_CONSECUTIVE_TURNS) :
    subTurnActions f c = if (f c).endTurnFlag then 1 else 1 + subTurnActions f (c + 1) := by
  rw [subTurnActions]
  simp [h]

theorem agentAfterMeet_name (a : Agent) (f : String) : (agentAfterMeet a f).name = a.name := by
  unfold agentAfterMeet
  split <;> rfl

theorem agentAfterMeet_known_locations (a : Agent) (f : String) :
    (agentAfterMeet a f).known_locations = a.known_locations := by
  unfold agentAfterMeet
  split <;> rfl

theorem agentAfterMeet_current_location (a : Agent) (f : String) :
    (agentAfterMeet a f).current_location = a.current_location := by
  unfold agentAfterMeet
  split <;> rfl

theorem agentAfterMeet_knowledge (a : Agent) (f : String) :
    (agentAfterMeet a f).knowledge = a.knowledge := by
  unfold agentAfterMeet
  split <;> rfl

theorem agentAfterMeet_known_items (a : Agent) (f : String) :
    (agentAfterMeet a f).known_items = a.known_items := by
  unfold agentAfterMeet
  split <;> rfl

theorem agentAfterMeet_acquired_items (a : Agent) (f : String) :
    (agentAfterMeet a f).acquired_items = a.acquired_items := by
  unfold agentAfterMeet
  split <;> rfl

theorem receive_action_travel (a : Agent) (t : TravelAction) (f : String) :
    receive_action a (Action.travel t) f = applyTravel (agentAfterMeet a f) t f := rfl

theorem receive_action_dialogue (a : Agent) (d : DialogueAction) (f : String) :
    receive_action a (Action.dialogue d) f = applyDialogue (agentAfterMeet a f) d := rfl

theorem applyTravel_known_locations (a : Agent) (t : TravelAction) (f : String) :
    strLower t.location ∈ (applyTravel a t f).known_locations := by
  by_cases hmem : strLower t.location ∈ a.known_locations <;>
    by_cases hname : f = a.name <;>
    simp [applyTravel, hmem, hname]

theorem applyTravel_current_actor (a : Agent) (t : TravelAction) (f : String)
    (h : f = a.name) : (applyTravel a t f).current_location = strLower t.location := by
  by_cases hmem : strLower t.location ∈ a.known_locations <;>
    simp [applyTravel, hmem, h]

theorem applyTravel_current_other (a : Agent) (t : TravelAction) (f : String)
    (h : f ≠ a.name) : (applyTravel a t f).current_location = a.current_location := by
  by_cases hmem : strLower t.location ∈ a.known_locations <;>
    simp [applyTravel, hmem, h]

/-! ## Claims -/

/-- C1 counterexample: the claim quantifies over any knowledge entry binding
the sought kind to a location other than the current one, but the override
at `chat.py` lines 168-174 inspects only the first entry of the sought kind.
`seekerTwoEntries` seeks the Sword, its knowledge list contains the entry
(Sword, "field") with "field" different from its current location "city",
and it knows another agent, yet `produce_next_action` falls through to the
oracle instead of forcing a travel. -/
theorem c1_counterexample :
    (∃ kn, kn ∈ seekerTwoEntries.knowledge ∧ kn.kind = ItemKind.Sword ∧
      kn.location ≠ seekerTwoEntries.current_location) ∧
    seekerTwoEntries.motivation = Motivation.seek ItemKind.Sword ∧
    seekerTwoEntries.known_agents ≠ [] ∧
    produce_next_action seekerTwoEntries (possible_next_actions seekerTwoEntries) [] none
      "ORACLE ANSWER" = ProposerResult.fromOracle "ORACLE ANSWER" := by
  refine ⟨⟨{ kind := ItemKind.Sword, location := "field" }, ?_, rfl, ?_⟩, rfl, ?_, ?_⟩
  · decide
  · decide
  · decide
  · decide

/-- C1 (amended): if the FIRST knowledge entry for the sought kind names a
nonempty lowered location different from `current_location`, and the agent
knows at least one agent, then `produce_next_action` returns the forced
Travel action to that location (upper-cased enum name), addressed to the
first known agent (upper-cased), with `end_turn = true`, independent of the
oracle, the grammar, the log window and the rejection feedback. -/
theorem c1_forced_travel (a : Agent) (sought : ItemKind) (kn : Knowledge)
    (hm : a.motivation = Motivation.seek sought)
    (hf : a.knowledge.find? (fun k => kindStr k.kind == kindStr sought) = some kn)
    (hne : strLower kn.location ≠ a.current_location)
    (hnonempty : strLower kn.location ≠ "")
    (hag : a.known_agents ≠ []) :
    ∃ t g, g ∈ a.known_agents ∧
      (∀ gr log rej oracle, produce_next_action a gr log rej oracle = ProposerResult.forced t) ∧
      t.location = strUpper (strLower kn.location) ∧
      strLower t.location = strLower kn.location ∧
      t.agent_to_talk_to = strUpper g ∧
      t.message = "Going to " ++ strLower kn.location ++ " to find the " ++
        kindStr sought ++ "." ∧
      t.end_turn = true := by
  obtain ⟨g, gs, hcons⟩ : ∃ g gs, a.known_agents = g :: gs := by
    cases hk : a.known_agents with
    | nil => exact absurd hk hag
    | cons g gs => exact ⟨g, gs, rfl⟩
  have hforced : forcedTravel? a =
      some { location := strUpper (strLower kn.location),
             message := "Going to " ++ strLower kn.location ++ " to find the " ++
               kindStr sought ++ ".",
             agent_to_talk_to := strUpper g,
             end_turn := true } := by
    simp only [forcedTravel?, hm, seekKnownLocation, hf, Option.map_some', hcons,
      List.head?_cons]
    rw [if_pos ⟨hnonempty, hne⟩]
  refine ⟨{ location := strUpper (strLower kn.location),
            message := "Going to " ++ strLower kn.location ++ " to find the " ++
              kindStr sought ++ ".",
            agent_to_talk_to := strUpper g, end_turn := true },
    g, by rw [hcons]; exact List.mem_cons_self g gs, ?_, rfl, ?_, rfl, rfl, rfl⟩
  · intro gr log rej oracle
    simp only [produce_next_action, hforced]
  · show strLower (strUpper (strLower kn.location)) = strLower kn.location
    rw [strLower_strUpper, strLower_idem]

/-- Witness for C1: the informed seeker (Sword known at "field", currently
in "city", knowing "Knower") is forced to travel to FIELD regardless of the
oracle. -/
theorem c1_forced_travel_witness :
    produce_next_action seekerInformed (possible_next_actions seekerInformed) [] none
        "ORACLE ANSWER" =
      ProposerResult.forced
        { location := "FIELD", message := "Going to field to find the Sword.",
          agent_to_talk_to := "KNOWER", end_turn := true } := by
  obtain ⟨t, g, hmem, hall, hloc, -, htalk, hmsg, hend⟩ :=
    c1_forced_travel seekerInformed ItemKind.Sword
      { kind := ItemKind.Sword, location := "field" }
      rfl (by decide) (by decide) (by decide) (by decide)
  have hg : g = "Knower" := by
    have hm2 := hmem
    simp [seekerInformed, seeker_agent] at hm2
    exact hm2
  subst hg
  rw [hall (possible_next_actions seekerInformed) [] none "ORACLE ANSWER"]
  obtain ⟨tl, tm, tt, te⟩ := t
  simp only at hloc htalk hmsg hend
  subst hloc htalk hmsg hend
  decide

/-- C2: the sub-turn loop takes at most `MAX_CONSECUTIVE_TURNS` accepted
actions, and exactly `MAX_CONSECUTIVE_TURNS` (3) of them when every accepted
action carries `end_turn = false` (`chat.py` lines 551-608). -/
theorem c2_subturn_bound (accepted : Nat → Action) :
    subTurnActions accepted 0 ≤ MAX_CONSECUTIVE_TURNS ∧
    ((∀ n, (accepted n).endTurnFlag = false) →
      subTurnActions accepted 0 = MAX_CONSECUTIVE_TURNS) := by
  have h3 : subTurnActions accepted 3 = 0 :=
    subTurnActions_stopped accepted 3 (by simp [MAX_CONSECUTIVE_TURNS])
  have h2 := subTurnActions_step accepted 2 (by simp [MAX_CONSECUTIVE_TURNS])
  have h1 := subTurnActions_step accepted 1 (by simp [MAX_CONSECUTIVE_TURNS])
  have h0 := subTurnActions_step accepted 0 (by simp [MAX_CONSECUTIVE_TURNS])
  constructor
  · rw [h0]
    split
    · simp [MAX_CONSECUTIVE_TURNS]
    · rw [h1]
      split
      · simp [MAX_CONSECUTIVE_TURNS]
      · rw [h2]
        split <;> simp [MAX_CONSECUTIVE_TURNS, h3]
  · intro hall
    rw [h0, hall 0, h1, hall 1, h2, hall 2]
    simp [h3, MAX_CONSECUTIVE_TURNS]

/-- Witness for C2: a stream of never-yielding search actions is cut off
after exactly three accepted actions. -/
theorem c2_subturn_bound_witness :
    subTurnActions nonYieldingStream 0 = MAX_CONSECUTIVE_TURNS :=
  (c2_subturn_bound nonYieldingStream).2 (fun _ => rfl)

/-- C3 counterexample: for the agent `lonerAgent`, whose `known_agents` list
is empty, no `ValidSearchAction` instance exists against the grammar built by
`possible_next_actions` — the `agent_to_talk_to` enum has no members
(`chat.py` lines 394-397, 408-410), so the claim that a Search action is
constructible is false. -/
theorem c3_counterexample :
    Grammar.searchConstructible (possible_next_actions lonerAgent) = False := by
  apply eq_false
  rintro ⟨s, -, hmem, -⟩
  simp [possible_next_actions, lonerAgent] at hmem

/-- C3 (amended): the grammar union always offers the Search variant, but a
Search action is constructible from it exactly when the agent-to-talk-to
value set (known agents other than oneself) is nonempty; with no other known
agents nothing, Search included, is constructible. -/
theorem c3_search_offered_iff (a : Agent) :
    (possible_next_actions a).searchOffered = true ∧
    (Grammar.searchConstructible (possible_next_actions a) ↔
      (possible_next_actions a).agentsToTalkTo ≠ []) := by
  refine ⟨rfl, ?_, ?_⟩
  · rintro ⟨s, -, hmem, -⟩
    exact List.ne_nil_of_mem hmem
  · intro hne
    obtain ⟨g, hg⟩ := List.exists_mem_of_ne_nil _ hne
    refine ⟨{ item_type := "Sword", message := "x", agent_to_talk_to := g, end_turn := true },
      Or.inl rfl, hg, ?_⟩
    show strippedNonempty "x" = true
    decide

/-- C6: broadcasting an accepted Travel invokes `receive_action` on every
member of the population; each receiver then knows the lowered destination,
the agent named as actor has moved there, and every other agent keeps its
previous `current_location` (`chat.py` lines 339-349 and 587-588). -/
theorem c6_travel_broadcast (pop : List Agent) (t : TravelAction) (actor : String)
    (a : Agent) (ha : a ∈ pop) :
    receive_action a (Action.travel t) actor ∈ broadcast pop (Action.travel t) actor ∧
    strLower t.location ∈ (receive_action a (Action.travel t) actor).known_locations ∧
    (a.name = actor →
      (receive_action a (Action.travel t) actor).current_location = strLower t.location) ∧
    (a.name ≠ actor →
      (receive_action a (Action.travel t) actor).current_location = a.current_location) := by
  refine ⟨List.mem_map_of_mem _ ha, ?_, ?_, ?_⟩
  · rw [receive_action_travel]
    exact applyTravel_known_locations _ _ _
  · intro hname
    rw [receive_action_travel, applyTravel_current_actor]
    rw [agentAfterMeet_name]
    exact hname.symm
  · intro hname
    rw [receive_action_travel, applyTravel_current_other, agentAfterMeet_current_location]
    rw [agentAfterMeet_name]
    exact fun h => hname h.symm

/-- Witness for C6: in the seeded population, after the Seeker's travel to
the field the Knower has kept its location while the Seeker has moved, and
both know "field". -/
theorem c6_travel_broadcast_witness :
    (receive_action seekerInformed (Action.travel fieldTravel) "Seeker").current_location
        = strLower fieldTravel.location ∧
    (receive_action knower_agent (Action.travel fieldTravel) "Seeker").current_location
        = knower_agent.current_location ∧
    strLower fieldTravel.location ∈
      (receive_action knower_agent (Action.travel fieldTravel) "Seeker").known_locations := by
  refine ⟨?_, ?_, ?_⟩
  · exact (c6_travel_broadcast [seekerInformed, knower_agent] fieldTravel "Seeker"
      seekerInformed (by decide)).2.2.1 rfl
  · exact (c6_travel_broadcast [seekerInformed, knower_agent] fieldTravel "Seeker"
      knower_agent (by decide)).2.2.2 (by decide)
  · exact (c6_travel_broadcast [seekerInformed, knower_agent] fieldTravel "Seeker"
      knower_agent (by decide)).2.1

/-- C9: the global action log is append-only across any sequence of accepted
actions: the prior log is a prefix of the later log, and each accepted step
appends exactly one `(acting agent name, action)` entry (`chat.py` line 571);
proposing, validating and broadcasting never write it. -/
theorem c9_log_append_only (w : WorldState) (steps : List (String × Action)) :
    w.global_past_actions <+: (runAccepted w steps).global_past_actions ∧
    (runAccepted w steps).global_past_actions.length
      = w.global_past_actions.length + steps.length := by
  induction steps generalizing w with
  | nil => simp [runAccepted]
  | cons s rest ih =>
    have hstep : runAccepted w (s :: rest) = runAccepted (applyAccepted w s.1 s.2) rest := by
      simp [runAccepted]
    obtain ⟨hpre, hlen⟩ := ih (applyAccepted w s.1 s.2)
    rw [hstep]
    constructor
    · exact List.IsPrefix.trans (List.prefix_append _ _) hpre
    · simp [applyAccepted] at hlen ⊢
      omega

/-! ## Further helper lemmas for the remaining claims -/

theorem applyDialogueQuestion_knowledge (a1 : Agent) (d : DialogueAction) :
    (applyDialogueQuestion a1 d).knowledge = a1.knowledge := by
  unfold applyDialogueQuestion
  repeat' split
  all_goals rfl

theorem applyDialogueQuestion_acquired_items (a1 : Agent) (d : DialogueAction) :
    (applyDialogueQuestion a1 d).acquired_items = a1.acquired_items := by
  unfold applyDialogueQuestion
  repeat' split
  all_goals rfl

theorem applyDialogueShare_acquired_items (a : Agent) (payload : Option Knowledge) :
    (applyDialogueShare a payload).acquired_items = a.acquired_items := by
  unfold applyDialogueShare
  dsimp only
  repeat' split
  all_goals rfl

theorem applyDialogueShare_of_exists (a : Agent) (nk : Knowledge)
    (hex : (a.knowledge.any fun k =>
      strLower k.location == strLower (strLower nk.location) &&
        kindStr k.kind == kindStr nk.kind) = true) :
    applyDialogueShare a (some nk) = a := by
  unfold applyDialogueShare
  dsimp only
  rw [if_neg (not_not_intro hex)]

theorem applyTravel_acquired_items (a : Agent) (t : TravelAction) (f : String) :
    (applyTravel a t f).acquired_items = a.acquired_items := by
  unfold applyTravel
  dsimp only
  repeat' split
  all_goals rfl

theorem mkItem?_kindStr (ty : String) (it : ItemKind) (h : mkItem? ty = some it) :
    kindStr it = ty := by
  unfold mkItem? at h
  split at h
  · cases h
    rename_i hty
    exact (beq_iff_eq.mp hty).symm
  · split at h
    · cases h
      rename_i hty
      exact (beq_iff_eq.mp hty).symm
    · cases h

theorem mkItem?_of_locationHasItem (a0 : Agent) (ty : String)
    (h : locationHasItem a0 ty = true) : ∃ it, mkItem? ty = some it := by
  unfold locationHasItem at h
  obtain ⟨k, hk, hp⟩ := List.any_eq_true.mp h
  have h2 := ((Bool.and_eq_true _ _).mp hp).2
  have h3 : kindStr k.kind = ty := beq_iff_eq.mp h2
  cases hkind : k.kind <;> rw [hkind] at h3 <;> rw [← h3]
  · exact ⟨ItemKind.Sword, by decide⟩
  · exact ⟨ItemKind.Stone, by decide⟩

theorem applySearch_characterize (a0 : Agent) (s : SearchAction) (f : String) :
    applySearch a0 s f = Except.ok a0 ∨
    ∃ it, (f == a0.name) = true ∧ locationHasItem a0 s.item_type = true ∧
      (a0.acquired_items.any fun x => kindStr x == s.item_type) = false ∧
      mkItem? s.item_type = some it ∧
      applySearch a0 s f =
        Except.ok { a0 with acquired_items := a0.acquired_items ++ [it] } := by
  unfold applySearch
  split
  · rename_i hname
    split
    · rename_i hloc
      split
      · rename_i hany
        split
        · rename_i hnone
          obtain ⟨it, hit⟩ := mkItem?_of_locationHasItem a0 s.item_type hloc
          rw [hit] at hnone
          cases hnone
        · rename_i it hit
          right
          exact ⟨it, hname, hloc, by simpa using hany, hit, rfl⟩
      · left
        rfl
    · left
      rfl
  · left
    rfl

theorem receive_action_search (a : Agent) (s : SearchAction) (f : String) (x : Agent)
    (h : applySearch (agentAfterMeet a f) s f = Except.ok x) :
    receive_action a (Action.search s) f = x := by
  unfold receive_action
  rw [show receiveActionE a (Action.search s) f = Except.ok x from h]

theorem receive_action_acquired_dialogue (a : Agent) (d : DialogueAction) (f : String) :
    (receive_action a (Action.dialogue d) f).acquired_items = a.acquired_items := by
  rw [receive_action_dialogue]
  unfold applyDialogue
  rw [applyDialogueQuestion_acquired_items, applyDialogueShare_acquired_items,
    agentAfterMeet_acquired_items]

theorem strContains_append (p d suf : String) :
    strContains (p ++ d ++ suf) d = true := by
  unfold strContains
  rw [List.any_eq_true]
  refine ⟨p.data.length, ?_, ?_⟩
  · rw [List.mem_range, String.data_append, String.data_append]
    simp only [List.length_append]
    omega
  · rw [String.data_append, String.data_append, List.append_assoc, List.drop_left]
    exact List.isPrefixOf_iff_prefix.mpr (List.prefix_append _ _)

/-- C4: a candidate Travel whose lowered destination is not among the
agent\x27s known locations is rejected by the first deterministic pre-check
with the unknown-destination reason, for every oracle verdict (the oracle is
never reached), and that reason names the destination as a substring
(`chat.py` lines 436-439). -/
theorem c4_travel_precheck (agent : Agent) (t : TravelAction)
    (h : strLower t.location ∉ agent.known_locations) :
    (∀ log oracle, Supervisor.validate_action agent (Action.travel t) log oracle
      = (false, travelReason t.location)) ∧
    strContains (travelReason t.location) t.location = true := by
  constructor
  · intro log oracle
    have htr : travelPre agent (Action.travel t) = some (travelReason t.location) := by
      unfold travelPre
      dsimp only
      rw [if_pos h]
    simp only [Supervisor.validate_action, htr]
  · exact strContains_append "Invalid travel destination: \x27" t.location
      "\x27 is not a known location"

/-- Witness for C4: the seeker\x27s travel to the unknown "moon" is rejected
with the unknown-destination reason although the oracle would have approved
it. -/
theorem c4_travel_precheck_witness :
    Supervisor.validate_action seeker_agent (Action.travel unknownTravel) []
      (Except.ok (true, "looks perfectly fine")) = (false, travelReason "moon") :=
  (c4_travel_precheck seeker_agent unknownTravel (by decide)).1 []
    (Except.ok (true, "looks perfectly fine"))

/-- C5 counterexample: the forced-seek pre-check runs before the
intention-phrase check (`chat.py` lines 442-467).  For the informed seeker,
the dialogue "I am going to check the field" does contain a denylisted
phrase, yet `validate_action` rejects it with the forced-travel reason, not
the state-intentions reason, refuting the claim as stated for every agent. -/
theorem c5_counterexample :
    ((intention_phrases.any fun p => strContains (strLower intentionDialogue.message) p)
        = true) ∧
    Supervisor.validate_action seekerInformed (Action.dialogue intentionDialogue) []
      (Except.ok (true, "ok")) = (false, seekReason "field" ItemKind.Sword) ∧
    seekReason "field" ItemKind.Sword ≠ intentionReason :=
  ⟨by decide, by decide, by decide⟩

/-- C5 (amended): for an agent on which the forced-seek pre-check does not
fire, a Dialogue whose message contains a denylisted phrase is rejected with
the state-intentions reason for every oracle; and a Dialogue containing no
denylisted phrase is never rejected by the intention rule. -/
theorem c5_intention_rejection (agent : Agent) (d : DialogueAction)
    (hseek : seekPre agent (Action.dialogue d) = none) :
    ((intention_phrases.any fun p => strContains (strLower d.message) p) = true →
      ∀ log oracle, Supervisor.validate_action agent (Action.dialogue d) log oracle
        = (false, intentionReason)) ∧
    ((intention_phrases.any fun p => strContains (strLower d.message) p) = false →
      intentionPre (Action.dialogue d) = none) := by
  constructor
  · intro hphrase log oracle
    have htr : travelPre agent (Action.dialogue d) = none := rfl
    have hint : intentionPre (Action.dialogue d) = some intentionReason := by
      unfold intentionPre
      dsimp only
      rw [if_pos hphrase]
    simp only [Supervisor.validate_action, htr, hseek, hint]
  · intro hphrase
    unfold intentionPre
    dsimp only
    rw [if_neg]
    rw [hphrase]
    exact Bool.false_ne_true

/-- Witness for C5: the helpful Knower\x27s intention-stating dialogue is
rejected with the state-intentions reason, while the sharing dialogue "I
found the sword in the field" passes the intention rule. -/
theorem c5_intention_rejection_witness :
    Supervisor.validate_action knower_agent (Action.dialogue intentionDialogue) []
      (Except.ok (true, "ok")) = (false, intentionReason) ∧
    intentionPre (Action.dialogue findingDialogue) = none := by
  constructor
  · exact (c5_intention_rejection knower_agent intentionDialogue rfl).1 (by decide) []
      (Except.ok (true, "ok"))
  · exact (c5_intention_rejection knower_agent findingDialogue rfl).2 (by decide)

/-- C7: delivering a Dialogue whose knowledge payload matches an existing
entry of the receiver (same item kind, same lowered location) leaves the
length of the knowledge list unchanged: the fact is never stored twice
(`chat.py` lines 305-328). -/
theorem c7_knowledge_idempotent (a : Agent) (d : DialogueAction) (f : String)
    (nk : Knowledge) (hk : d.knowledge = some nk)
    (hex : (a.knowledge.any fun k =>
      strLower k.location == strLower nk.location &&
        kindStr k.kind == kindStr nk.kind) = true) :
    (receive_action a (Action.dialogue d) f).knowledge.length = a.knowledge.length := by
  rw [receive_action_dialogue]
  unfold applyDialogue
  rw [applyDialogueQuestion_knowledge, hk, applyDialogueShare_of_exists, agentAfterMeet_knowledge]
  rw [agentAfterMeet_knowledge]
  simp only [strLower_idem]
  exact hex

/-- Witness for C7: re-sharing (Sword, "field") with the Knower, who already
records that fact, leaves its knowledge length at 1. -/
theorem c7_knowledge_idempotent_witness :
    (receive_action knower_agent (Action.dialogue findingDialogue) "Seeker").knowledge.length
      = knower_agent.knowledge.length :=
  c7_knowledge_idempotent knower_agent findingDialogue "Seeker"
    { kind := ItemKind.Sword, location := "field" } rfl (by decide)

/-- C8: `acquired_items` stays duplicate-free under any delivery; delivering
a Search for a kind already held leaves it unchanged; and it changes at all
only by appending the searched kind when the actor\x27s knowledge places that
kind at its current location and the kind is not yet held (`chat.py` lines
285-303). -/
theorem c8_acquisition_idempotent (a : Agent) (act : Action) (f : String) :
    (a.acquired_items.Nodup → (receive_action a act f).acquired_items.Nodup) ∧
    (∀ s, act = Action.search s →
      (a.acquired_items.any fun it => kindStr it == s.item_type) = true →
      (receive_action a act f).acquired_items = a.acquired_items) ∧
    ((receive_action a act f).acquired_items = a.acquired_items ∨
      ∃ s it, act = Action.search s ∧ (f == a.name) = true ∧
        locationHasItem (agentAfterMeet a f) s.item_type = true ∧
        (a.acquired_items.any fun x => kindStr x == s.item_type) = false ∧
        mkItem? s.item_type = some it ∧
        (receive_action a act f).acquired_items = a.acquired_items ++ [it]) := by
  cases act with
  | dialogue d =>
    refine ⟨?_, ?_, Or.inl (receive_action_acquired_dialogue a d f)⟩
    · rw [receive_action_acquired_dialogue]
      exact id
    · intro s heq
      cases heq
  | travel t =>
    have hacq : (receive_action a (Action.travel t) f).acquired_items = a.acquired_items := by
      rw [receive_action_travel, applyTravel_acquired_items, agentAfterMeet_acquired_items]
    refine ⟨?_, ?_, Or.inl hacq⟩
    · rw [hacq]
      exact id
    · intro s heq
      cases heq
  | search s =>
    have ha0 : (agentAfterMeet a f).acquired_items = a.acquired_items :=
      agentAfterMeet_acquired_items a f
    rcases applySearch_characterize (agentAfterMeet a f) s f with hok | ⟨it, h1, h2, h3, h4, h5⟩
    · have hr : receive_action a (Action.search s) f = agentAfterMeet a f :=
        receive_action_search a s f _ hok
      refine ⟨?_, ?_, Or.inl (by rw [hr, ha0])⟩
      · rw [hr, ha0]
        exact id
      · intro s' heq hany
        rw [hr, ha0]
    · have hr : receive_action a (Action.search s) f =
          { agentAfterMeet a f with
            acquired_items := (agentAfterMeet a f).acquired_items ++ [it] } :=
        receive_action_search a s f _ h5
      have hover : (receive_action a (Action.search s) f).acquired_items
          = a.acquired_items ++ [it] := by
        rw [hr]
        show (agentAfterMeet a f).acquired_items ++ [it] = a.acquired_items ++ [it]
        rw [ha0]
      rw [ha0] at h3
      have hname : (f == a.name) = true := by
        rw [agentAfterMeet_name] at h1
        exact h1
      have hnotmem : it ∉ a.acquired_items := by
        intro hmem
        have hfalse := List.any_eq_false.mp h3 it hmem
        rw [mkItem?_kindStr s.item_type it h4] at hfalse
        simp at hfalse
      refine ⟨?_, ?_, Or.inr ⟨s, it, rfl, hname, h2, h3, h4, hover⟩⟩
      · intro hnodup
        rw [hover]
        refine List.Nodup.append hnodup (List.nodup_singleton it) ?_
        intro x hx hx'
        rw [List.mem_singleton] at hx'
        subst hx'
        exact hnotmem hx
      · intro s' heq hany
        cases heq
        rw [hany] at h3
        cases h3

/-- Witness for C8: the seeker already holding the sword re-delivers a
successful sword search; its inventory is unchanged and duplicate-free. -/
theorem c8_acquisition_idempotent_witness :
    (receive_action seekerHolding (Action.search swordSearch) "Seeker").acquired_items
        = seekerHolding.acquired_items ∧
    (receive_action seekerHolding (Action.search swordSearch) "Seeker").acquired_items.Nodup := by
  constructor
  · exact (c8_acquisition_idempotent seekerHolding (Action.search swordSearch) "Seeker").2.1
      swordSearch rfl (by decide)
  · exact (c8_acquisition_idempotent seekerHolding (Action.search swordSearch) "Seeker").1
      (by decide)

/-- C10: the `try` body of `receive_action` never raises for any delivered
action (the only modelled failure point, constructing an item of an unknown
kind during a successful search, is unreachable because a successful search
requires a knowledge entry of that kind), so `receive_action` always returns
normally and the broadcast loop over any population completes with one
updated agent per member (`chat.py` lines 276-352, 587-588). -/
theorem c10_receive_never_raises (a : Agent) (act : Action) (f : String) :
    (∃ a', receiveActionE a act f = Except.ok a' ∧ receive_action a act f = a') ∧
    ∀ pop, (broadcast pop act f).length = pop.length := by
  constructor
  · cases act with
    | dialogue d => exact ⟨_, rfl, rfl⟩
    | travel t => exact ⟨_, rfl, rfl⟩
    | search s =>
      rcases applySearch_characterize (agentAfterMeet a f) s f with hok | ⟨it, -, -, -, -, h5⟩
      · exact ⟨_, hok, receive_action_search a s f _ hok⟩
      · exact ⟨_, h5, receive_action_search a s f _ h5⟩
  · intro pop
    simp [broadcast]

end Chat
